import Mathlib

/-!
Shallow embedding of the real-time community WebSocket layer of the
FusionAI-Companion / GarvisNeuralMind_v2 repository.

Main sources:
* src/GarvisNeuralMind_v2/src/community/websocket.py (class WebSocketManager)
* src/GarvisNeuralMind_v2/src/community/manager.py (class CommunityManager)

Modelling conventions:
* Python dicts are association lists in insertion order: a new key is
  appended at the end, an existing key is overwritten in place, deletion
  preserves the order of the remaining entries.
* Python sets of strings are duplicate-free lists; only membership matters.
* A WebSocket transport handle is a Nat identifier.  Transport sends are
  assumed reliable (no WebSocketDisconnect), so the send-failure cleanup
  paths of the source never fire; sends are recorded as outputs, a pair of
  the recipient identity and the JSON payload.
* JSON payloads are association lists of string keys and string values.
  Timestamps are passed in as an abstract string parameter standing for
  datetime.utcnow().isoformat(); the source calls utcnow() separately for
  each field, here one call per operation is used.
* Exceptions inside a message handler are modelled by a Bool flag in the
  handler result; handle_message turns the flag into the error envelope of
  its except branch, exactly as the source catches all handler exceptions.
  Under reliable transport the only reachable exception is the KeyError in
  the join_room handler when the sender has no user_to_rooms entry.
* The nested update_data field of community_update / post_update events is
  flattened to a string, since no property depends on its contents.
-/

namespace FusionWS

/-- Lookup in a Python-style dict represented as an association list
(first matching key wins; keys are unique along all reachable states). -/
def alookup {β : Type} (k : String) : List (String × β) → Option β
  | [] => none
  | (k', v) :: rest => if k = k' then some v else alookup k rest

/-- Python dict assignment d[k] = v: overwrite in place, else append. -/
def aset {β : Type} (k : String) (v : β) : List (String × β) → List (String × β)
  | [] => [(k, v)]
  | (k', v') :: rest => if k = k' then (k', v) :: rest else (k', v') :: aset k v rest

/-- Python dict deletion del d[k] (no-op when the key is absent). -/
def aerase {β : Type} (k : String) : List (String × β) → List (String × β)
  | [] => []
  | (k', v) :: rest => if k' = k then aerase k rest else (k', v) :: aerase k rest

/-- Python set.add for a set of strings represented as a list. -/
def sadd (x : String) (l : List String) : List String :=
  if x ∈ l then l else x :: l

/-- Python set.remove / discard for a set of strings. -/
def srem (x : String) : List String → List String
  | [] => []
  | y :: rest => if y = x then srem x rest else y :: srem x rest

/-- A JSON object sent on the wire (string keys and values only). -/
abbrev Json := List (String × String)

/-- One transport send: recipient identity and payload. -/
abbrev Output := String × Json

/-- The mutable state of WebSocketManager.  The closed_handles field
records every transport handle on which close was invoked; no method of
WebSocketManager ever closes a handle, so it only ever stays unchanged. -/
structure WSState where
  active_connections : List (String × Nat)
  user_rooms : List (String × List String)
  user_to_rooms : List (String × List String)
  closed_handles : List Nat
deriving DecidableEq

/-- The state of a fresh WebSocketManager (its constructor). -/
def empty_state : WSState := ⟨[], [], [], []⟩

/-- Replace the active_connections component. -/
def setActive (s : WSState) (a : List (String × Nat)) : WSState :=
  ⟨a, s.user_rooms, s.user_to_rooms, s.closed_handles⟩

/-- Replace the user_rooms component. -/
def setRooms (s : WSState) (m : List (String × List String)) : WSState :=
  ⟨s.active_connections, m, s.user_to_rooms, s.closed_handles⟩

/-- Replace the user_to_rooms component. -/
def setUserRooms (s : WSState) (m : List (String × List String)) : WSState :=
  ⟨s.active_connections, s.user_rooms, m, s.closed_handles⟩

/-- user_id in self.active_connections. -/
def isConnected (s : WSState) (u : String) : Bool :=
  (alookup u s.active_connections).isSome

/-- self.user_rooms.get(room_id, set()), the members of a room
(utility method get_room_users of the source). -/
def membersOf (s : WSState) (r : String) : List String :=
  (alookup r s.user_rooms).getD []

/-- self.user_to_rooms.get(user_id, set()), the rooms of an identity
(utility method get_user_rooms of the source). -/
def roomsOf (s : WSState) (u : String) : List String :=
  (alookup u s.user_to_rooms).getD []

/-- Python str.strip(): drop leading and trailing whitespace.  Defined
structurally over the character list so that it computes by kernel
reduction (String.trim of core Lean does not). -/
def pystrip (s : String) : String :=
  ⟨((s.data.dropWhile Char.isWhitespace).reverse.dropWhile
      Char.isWhitespace).reverse⟩

/-- Python truthiness test applied to an optional string field:
None and the empty string are falsy. -/
def falsy : Option String → Bool
  | none => true
  | some x => x == ""

/-- The exclusion test of the broadcast loops:
if exclude_user and user_id == exclude_user.  An empty-string
exclude_user is falsy, so nobody is excluded in that case. -/
def excludes (ex : Option String) (u : String) : Bool :=
  match ex with
  | none => false
  | some e => if e = "" then false else u == e

/-- The error envelope of the source: type, message, timestamp. -/
def error_envelope (msg now : String) : Json :=
  [("type", "error"), ("message", msg), ("timestamp", now)]

/-- send_personal_message: send only when the recipient is connected
(reliable transport, so the disconnect-on-failure path never fires). -/
def send_personal_message (s : WSState) (u : String) (m : Json) : List Output :=
  if isConnected s u then [(u, m)] else []

/-- broadcast_to_all: iterate the active connections in insertion order,
skipping the excluded identity. -/
def broadcast_to_all (s : WSState) (m : Json) (ex : Option String) : List Output :=
  s.active_connections.filterMap
    (fun p => if excludes ex p.1 then none else some (p.1, m))

/-- broadcast_to_room: return immediately when the room is unknown, else
send to each member that is excluded by neither test, skipping members
without an active connection. -/
def broadcast_to_room (s : WSState) (r : String) (m : Json) (ex : Option String) :
    List Output :=
  match alookup r s.user_rooms with
  | none => []
  | some mem =>
      mem.filterMap (fun u =>
        if excludes ex u then none
        else if isConnected s u then some (u, m) else none)

/-- First block of WebSocketManager._remove_user_from_room: drop the
identity from the room member set and delete the room when it becomes
empty. -/
def rm_room_side (s : WSState) (u r : String) : WSState :=
  match alookup r s.user_rooms with
  | some mem =>
      if u ∈ mem then
        if srem u mem = [] then setRooms s (aerase r s.user_rooms)
        else setRooms s (aset r (srem u mem) s.user_rooms)
      else s
  | none => s

/-- Second block of WebSocketManager._remove_user_from_room: drop the
room from the identity's room set. -/
def rm_user_side (s : WSState) (u r : String) : WSState :=
  match alookup u s.user_to_rooms with
  | some rl =>
      if r ∈ rl then setUserRooms s (aset u (srem r rl) s.user_to_rooms)
      else s
  | none => s

/-- WebSocketManager._remove_user_from_room: the two blocks in source
order. -/
def remove_user_from_room (s : WSState) (u r : String) : WSState :=
  rm_user_side (rm_room_side s u r) u r

/-- WebSocketManager.connect: accept, store the websocket under the
identity (overwriting any previous handle without closing it), reset the
identity's room set to empty, send the welcome message, and broadcast
user_online to everyone (no exclusion in the source). -/
def connect (s : WSState) (u : String) (h : Nat) (now : String) :
    WSState × List Output :=
  let s1 : WSState :=
    ⟨aset u h s.active_connections, s.user_rooms,
      aset u [] s.user_to_rooms, s.closed_handles⟩
  let welcome := send_personal_message s1 u
    [("type", "connection_established"),
     ("message", "Welcome to GarvisNeuralMind Community!"),
     ("timestamp", now), ("user_id", u)]
  let online := broadcast_to_all s1
    [("type", "user_online"), ("user_id", u), ("timestamp", now)] none
  (s1, welcome ++ online)

/-- The loop of WebSocketManager.disconnect over a snapshot of the rooms
of the identity: for room_id in list(self.user_to_rooms.get(user_id, [])). -/
def leave_all (s : WSState) (u : String) (rooms : List String) : WSState :=
  rooms.foldl (fun st r => remove_user_from_room st u r) s

/-- WebSocketManager.disconnect: when the identity is connected, remove
it from all its rooms, delete its connection and room-set entries, and
broadcast user_offline to the remaining connections (the source schedules
this broadcast as a task after the deletions, over the updated state).
No per-room notification is sent and no handle is closed. -/
def disconnect (s : WSState) (u : String) (now : String) : WSState × List Output :=
  if isConnected s u then
    let s1 := leave_all s u (roomsOf s u)
    let s2 : WSState :=
      ⟨aerase u s1.active_connections, s1.user_rooms,
        aerase u s1.user_to_rooms, s1.closed_handles⟩
    (s2, broadcast_to_all s2
      [("type", "user_offline"), ("user_id", u), ("timestamp", now)] none)
  else (s, [])

/-- An inbound message: data.get(field) for each field the handlers read.
A missing key is none; is_typing is kept as a Bool. -/
structure InData where
  type : Option String
  room_id : Option String
  content : Option String
  message_type : Option String
  is_typing : Option Bool
  status : Option String
  custom_message : Option String
  room_type : Option String
  community_id : Option String
  post_id : Option String
  update_type : Option String
deriving DecidableEq

/-- Render a Bool field for the wire. -/
def boolVal : Bool → String
  | true => "true"
  | false => "false"

/-- Render the tag for the f-string error texts (None prints as None). -/
def tagStr : Option String → String
  | none => "None"
  | some t => t

/-- A handler result: new state, outputs, and whether the handler raised
an exception that handle_message will catch. -/
abbrev HandlerResult := WSState × List Output × Bool

/-- WebSocketManager._handle_chat_message: require a truthy room_id and
nonempty stripped content, require room membership on the sender side,
then broadcast the enriched message to the whole room with no exclusion. -/
def handle_chat_message (s : WSState) (u : String) (d : InData) (now : String) :
    HandlerResult :=
  let content := pystrip (d.content.getD "")
  if falsy d.room_id || content == "" then
    (s, send_personal_message s u
      (error_envelope "Room ID and content are required" now), false)
  else
    let r := d.room_id.getD ""
    if ¬ r ∈ roomsOf s u then
      (s, send_personal_message s u
        (error_envelope "You are not in this room" now), false)
    else
      let msg : Json :=
        [("type", "chat_message"), ("room_id", r), ("user_id", u),
         ("content", content), ("message_type", d.message_type.getD "text"),
         ("timestamp", now), ("message_id", u ++ "_" ++ now)]
      (s, broadcast_to_room s r msg none, false)

/-- WebSocketManager._handle_join_room: require a truthy room_id, add the
sender to the room member set (creating the room), then index the room on
the sender side; the source indexes self.user_to_rooms[user_id] directly,
which raises KeyError when the sender has no entry, after the room-side
insertion already happened.  On success acknowledge the sender and notify
the other room members. -/
def handle_join_room (s : WSState) (u : String) (d : InData) (now : String) :
    HandlerResult :=
  if falsy d.room_id then
    (s, send_personal_message s u (error_envelope "Room ID is required" now), false)
  else
    let r := d.room_id.getD ""
    let s1 := setRooms s (aset r (sadd u (membersOf s r)) s.user_rooms)
    match alookup u s1.user_to_rooms with
    | none => (s1, [], true)
    | some rl =>
        let s2 := setUserRooms s1 (aset u (sadd r rl) s1.user_to_rooms)
        let ack := send_personal_message s2 u
          [("type", "room_joined"), ("room_id", r),
           ("room_type", d.room_type.getD "community"), ("timestamp", now)]
        let notify := broadcast_to_room s2 r
          [("type", "user_joined_room"), ("room_id", r), ("user_id", u),
           ("timestamp", now)] (some u)
        (s2, ack ++ notify, false)

/-- WebSocketManager._handle_leave_room: a falsy room_id returns silently
with no error; otherwise remove the membership edge, acknowledge the
sender, and notify the room (no exclusion; the sender is already out of
the member set, and a room left empty was deleted so nobody is notified). -/
def handle_leave_room (s : WSState) (u : String) (d : InData) (now : String) :
    HandlerResult :=
  if falsy d.room_id then (s, [], false)
  else
    let r := d.room_id.getD ""
    let s1 := remove_user_from_room s u r
    let ack := send_personal_message s1 u
      [("type", "room_left"), ("room_id", r), ("timestamp", now)]
    let notify := broadcast_to_room s1 r
      [("type", "user_left_room"), ("room_id", r), ("user_id", u),
       ("timestamp", now)] none
    (s1, ack ++ notify, false)

/-- WebSocketManager._handle_typing_indicator: silently dropped when
room_id is falsy or the sender is not a member; otherwise broadcast to
the room excluding the sender. -/
def handle_typing_indicator (s : WSState) (u : String) (d : InData) (now : String) :
    HandlerResult :=
  if falsy d.room_id then (s, [], false)
  else
    let r := d.room_id.getD ""
    if ¬ r ∈ roomsOf s u then (s, [], false)
    else
      (s, broadcast_to_room s r
        [("type", "typing_indicator"), ("room_id", r), ("user_id", u),
         ("is_typing", boolVal (d.is_typing.getD false)), ("timestamp", now)]
        (some u), false)

/-- The status whitelist of _handle_user_status. -/
def validStatus : Option String → Bool
  | some x => ["online", "away", "busy", "invisible"].contains x
  | none => false

/-- WebSocketManager._handle_user_status: a status outside the whitelist
returns silently (no error, no broadcast); a valid one is broadcast to
all connections excluding the sender. -/
def handle_user_status (s : WSState) (u : String) (d : InData) (now : String) :
    HandlerResult :=
  if validStatus d.status then
    (s, broadcast_to_all s
      [("type", "user_status_update"), ("user_id", u),
       ("status", d.status.getD ""), ("custom_message", d.custom_message.getD ""),
       ("timestamp", now)] (some u), false)
  else (s, [], false)

/-- WebSocketManager._handle_community_update: silently dropped on falsy
fields, else broadcast to the community room. -/
def handle_community_update (s : WSState) (u : String) (d : InData) (now : String) :
    HandlerResult :=
  if falsy d.community_id || falsy d.update_type then (s, [], false)
  else
    (s, broadcast_to_room s ("community_" ++ d.community_id.getD "")
      [("type", "community_update"), ("community_id", d.community_id.getD ""),
       ("update_type", d.update_type.getD ""), ("user_id", u),
       ("timestamp", now)] none, false)

/-- WebSocketManager._handle_post_update: silently dropped on falsy
fields, else broadcast to all connections with no exclusion. -/
def handle_post_update (s : WSState) (u : String) (d : InData) (now : String) :
    HandlerResult :=
  if falsy d.post_id || falsy d.update_type then (s, [], false)
  else
    (s, broadcast_to_all s
      [("type", "post_update"), ("post_id", d.post_id.getD ""),
       ("update_type", d.update_type.getD ""), ("user_id", u),
       ("timestamp", now)] none, false)

/-- The keys of self.message_handlers (seven tags, not five). -/
def handled_types : List String :=
  ["chat_message", "join_room", "leave_room", "typing_indicator",
   "user_status", "community_update", "post_update"]

/-- message_type in self.message_handlers. -/
def isHandled : Option String → Bool
  | some t => handled_types.contains t
  | none => false

/-- Dispatch on the tag, mirroring the handler dictionary. -/
def run_handler (s : WSState) (u : String) (d : InData) (now : String) :
    HandlerResult :=
  if d.type = some "chat_message" then handle_chat_message s u d now
  else if d.type = some "join_room" then handle_join_room s u d now
  else if d.type = some "leave_room" then handle_leave_room s u d now
  else if d.type = some "typing_indicator" then handle_typing_indicator s u d now
  else if d.type = some "user_status" then handle_user_status s u d now
  else if d.type = some "community_update" then handle_community_update s u d now
  else handle_post_update s u d now

/-- WebSocketManager.handle_message: a recognized tag is dispatched with
all handler exceptions caught and turned into an error envelope to the
sender; an unrecognized tag (including a missing type) earns an
Unknown-message-type error envelope. -/
def handle_message (s : WSState) (u : String) (d : InData) (now : String) :
    WSState × List Output :=
  if isHandled d.type then
    let res := run_handler s u d now
    if res.2.2 then
      (res.1, res.2.1 ++ send_personal_message res.1 u
        (error_envelope ("Error processing " ++ tagStr d.type) now))
    else (res.1, res.2.1)
  else
    (s, send_personal_message s u
      (error_envelope ("Unknown message type: " ++ tagStr d.type) now))

/-- The bidirectional membership invariant of the specification: an edge
exists on the room side exactly when it exists on the identity side. -/
def edgeInv (s : WSState) : Prop :=
  ∀ u r, u ∈ membersOf s r ↔ r ∈ roomsOf s u

/-- Every connected identity has a user_to_rooms entry (so the direct
indexing in the join handler cannot raise for a connected sender). -/
def connInv (s : WSState) : Prop :=
  ∀ u, isConnected s u = true → (alookup u s.user_to_rooms).isSome = true

/-- The no-orphan-rooms invariant: every room present in the index has a
non-empty member set. -/
def roomsInv (s : WSState) : Prop :=
  ∀ r m, alookup r s.user_rooms = some m → m ≠ []

/-- Decidable check that an identity is a member of no room. -/
def noRoomsB (s : WSState) (u : String) : Bool :=
  s.user_rooms.all (fun p => decide (u ∉ p.2))

/-- States reachable from a fresh manager by the public operations:
connect, handle_message (for a currently connected sender, as the
transport endpoint only feeds messages from open connections), and
disconnect. -/
inductive Reach : WSState → Prop
  | init : Reach empty_state
  | conn {s : WSState} (u : String) (h : Nat) (now : String) :
      Reach s → Reach (connect s u h now).1
  | msg {s : WSState} (u : String) (d : InData) (now : String) :
      Reach s → isConnected s u = true → Reach (handle_message s u d now).1
  | disc {s : WSState} (u : String) (now : String) :
      Reach s → Reach (disconnect s u now).1

/-- Reachability restricted to sequences in which connect is only invoked
for an identity that is currently a member of no room (in particular,
first connects, and reconnects preceded by a disconnect). -/
inductive ReachSafe : WSState → Prop
  | init : ReachSafe empty_state
  | conn {s : WSState} (u : String) (h : Nat) (now : String) :
      ReachSafe s → noRoomsB s u = true → ReachSafe (connect s u h now).1
  | msg {s : WSState} (u : String) (d : InData) (now : String) :
      ReachSafe s → isConnected s u = true → ReachSafe (handle_message s u d now).1
  | disc {s : WSState} (u : String) (now : String) :
      ReachSafe s → ReachSafe (disconnect s u now).1

/-- An inbound payload with only a type tag. -/
def tagOnly (t : String) : InData :=
  ⟨some t, none, none, none, none, none, none, none, none, none, none⟩

/-- A join_room payload. -/
def joinMsg (r : String) : InData :=
  ⟨some "join_room", some r, none, none, none, none, none, none, none, none, none⟩

/-- A chat_message payload. -/
def chatMsg (r c : String) : InData :=
  ⟨some "chat_message", some r, some c, none, none, none, none, none, none, none, none⟩

/-- A user_status payload. -/
def statusMsg (st : String) : InData :=
  ⟨some "user_status", none, none, none, none, some st, none, none, none, none, none⟩

/-- Demo state: u1 connected. -/
def demo1 : WSState := (connect empty_state "u1" 1 "t0").1

/-- Demo state: u1 and u2 connected. -/
def demo2 : WSState := (connect demo1 "u2" 2 "t1").1

/-- Demo state: u1 and u2 connected, u1 a member of r1. -/
def demo3 : WSState := (handle_message demo2 "u1" (joinMsg "r1") "t2").1

/-- Demo state: u1 and u2 connected, both members of r1. -/
def demo4 : WSState := (handle_message demo3 "u2" (joinMsg "r1") "t3").1

/-- Demo state: u1 reconnected while still a member of r1. -/
def demo5 : WSState := (connect demo3 "u1" 3 "t4").1

/-- Demo state: an identity whose id is the empty string plus u2, both
connected. -/
def demoEmptyId : WSState :=
  (connect (connect empty_state "" 1 "e0").1 "u2" 2 "e1").1

end FusionWS

namespace FusionCM

/-!
Model of the presence sweep of CommunityManager._update_user_activity
(src/GarvisNeuralMind_v2/src/community/manager.py).  The field
active_users maps integer user ids to last-activity timestamps; the sweep
collects users whose timestamp is older than five minutes, deletes them
and awaits cache_user_online_status(user_id, False) for each, the
now-offline signal recorded here as the second component.  The loop body
runs inside try/except: an exception is logged and the loop sleeps the
same 60 seconds and continues; the failure of a sweep is modelled as a
Bool per iteration, a failed iteration leaving the state unchanged and
emitting nothing.
-/

/-- The cutoff datetime.utcnow() - timedelta(minutes=5). -/
def inactivity_cutoff (now : Int) : Int := now - 5 * 60

/-- One successful pass of the sweep body: surviving active_users and the
users reported offline, in the order the source loop visits them. -/
def sweep_inactive (active_users : List (Nat × Int)) (now : Int) :
    List (Nat × Int) × List Nat :=
  let inactive_users :=
    (active_users.filter (fun p => decide (p.2 < inactivity_cutoff now))).map Prod.fst
  (inactive_users.foldl (fun acc uid => acc.filter (fun p => !(p.1 == uid))) active_users,
   inactive_users)

/-- The sweep loop: one iteration per list element, 60 time-units apart
(asyncio.sleep(60) runs in both the success and the except branch); a
false entry is an iteration whose body raised. -/
def update_user_activity (active_users : List (Nat × Int)) (t0 : Int) :
    List Bool → List (Nat × Int) × List Nat
  | [] => (active_users, [])
  | ok :: rest =>
      if ok then
        let swept := sweep_inactive active_users t0
        let tail := update_user_activity swept.1 (t0 + 60) rest
        (tail.1, swept.2 ++ tail.2)
      else
        update_user_activity active_users (t0 + 60) rest

end FusionCM

namespace FusionWS

theorem alookup_aset_self {β : Type} (k : String) (v : β) (m : List (String × β)) :
    alookup k (aset k v m) = some v := by
  induction m with
  | nil => simp [aset, alookup]
  | cons p rest ih =>
      obtain ⟨k1, v1⟩ := p
      by_cases h : k = k1
      · simp [aset, h, alookup]
      · simp [aset, h, alookup, ih]

theorem alookup_aset_ne {β : Type} {k k' : String} (h : k' ≠ k) (v : β)
    (m : List (String × β)) : alookup k' (aset k v m) = alookup k' m := by
  induction m with
  | nil => simp [aset, alookup, h]
  | cons p rest ih =>
      obtain ⟨k1, v1⟩ := p
      by_cases h1 : k = k1
      · subst h1
        simp [aset, alookup, h]
      · by_cases h2 : k' = k1 <;> simp [aset, alookup, h1, h2, ih]

theorem alookup_aerase_self {β : Type} (k : String) (m : List (String × β)) :
    alookup k (aerase k m) = none := by
  induction m with
  | nil => simp [aerase, alookup]
  | cons p rest ih =>
      obtain ⟨k1, v1⟩ := p
      by_cases h : k1 = k
      · simp [aerase, h, ih]
      · have h' : ¬ k = k1 := fun hh => h hh.symm
        simp [aerase, alookup, h, h', ih]

theorem alookup_aerase_ne {β : Type} {k k' : String} (h : k' ≠ k)
    (m : List (String × β)) : alookup k' (aerase k m) = alookup k' m := by
  induction m with
  | nil => simp [aerase, alookup]
  | cons p rest ih =>
      obtain ⟨k1, v1⟩ := p
      by_cases h1 : k1 = k
      · subst h1
        simp [aerase, alookup, h, ih]
      · by_cases h2 : k' = k1 <;> simp [aerase, alookup, h1, h2, ih]

theorem alookup_mem {β : Type} {k : String} {v : β} {m : List (String × β)}
    (h : alookup k m = some v) : (k, v) ∈ m := by
  induction m with
  | nil => simp [alookup] at h
  | cons p rest ih =>
      obtain ⟨k1, v1⟩ := p
      by_cases h1 : k = k1
      · subst h1
        simp [alookup] at h
        simp [h]
      · simp [alookup, h1] at h
        exact List.mem_cons_of_mem _ (ih h)

theorem mem_sadd {x y : String} {l : List String} :
    x ∈ sadd y l ↔ x = y ∨ x ∈ l := by
  by_cases h : y ∈ l
  · simp only [sadd, if_pos h]
    constructor
    · exact fun hx => Or.inr hx
    · rintro (rfl | hx)
      · exact h
      · exact hx
  · simp [sadd, if_neg h]

theorem mem_srem {x y : String} {l : List String} :
    x ∈ srem y l ↔ x ∈ l ∧ x ≠ y := by
  induction l with
  | nil => simp [srem]
  | cons a rest ih =>
      by_cases h : a = y
      · simp only [srem, if_pos h, ih, List.mem_cons]
        subst h
        constructor
        · exact fun hx => ⟨Or.inr hx.1, hx.2⟩
        · rintro ⟨rfl | hx, hne⟩
          · exact absurd rfl hne
          · exact ⟨hx, hne⟩
      · simp only [srem, if_neg h, List.mem_cons, ih]
        constructor
        · rintro (rfl | hx)
          · exact ⟨Or.inl rfl, h⟩
          · exact ⟨Or.inr hx.1, hx.2⟩
        · rintro ⟨rfl | hx, hne⟩
          · exact Or.inl rfl
          · exact Or.inr ⟨hx, hne⟩

theorem sadd_ne_nil (x : String) (l : List String) : sadd x l ≠ [] := by
  by_cases h : x ∈ l
  · intro hnil
    rw [sadd, if_pos h] at hnil
    subst hnil
    simp at h
  · simp [sadd, if_neg h]

theorem srem_eq_of_not_mem {x : String} {l : List String} (h : x ∉ l) :
    srem x l = l := by
  induction l with
  | nil => rfl
  | cons a rest ih =>
      have ha : a ≠ x := fun hh => h (hh ▸ List.mem_cons_self a rest)
      have hr : x ∉ rest := fun hh => h (List.mem_cons_of_mem a hh)
      simp [srem, ha, ih hr]

theorem srem_srem (x : String) (l : List String) :
    srem x (srem x l) = srem x l := by
  apply srem_eq_of_not_mem
  intro h
  exact (mem_srem.mp h).2 rfl

end FusionWS

namespace FusionWS

theorem rm_room_side_active (s : WSState) (u r : String) :
    (rm_room_side s u r).active_connections = s.active_connections := by
  unfold rm_room_side
  split <;> try rfl
  split <;> try rfl
  split <;> rfl

theorem rm_room_side_utr (s : WSState) (u r : String) :
    (rm_room_side s u r).user_to_rooms = s.user_to_rooms := by
  unfold rm_room_side
  split <;> try rfl
  split <;> try rfl
  split <;> rfl

theorem rm_room_side_closed (s : WSState) (u r : String) :
    (rm_room_side s u r).closed_handles = s.closed_handles := by
  unfold rm_room_side
  split <;> try rfl
  split <;> try rfl
  split <;> rfl

theorem rm_user_side_active (s : WSState) (u r : String) :
    (rm_user_side s u r).active_connections = s.active_connections := by
  unfold rm_user_side
  split <;> try rfl
  split <;> rfl

theorem rm_user_side_rooms (s : WSState) (u r : String) :
    (rm_user_side s u r).user_rooms = s.user_rooms := by
  unfold rm_user_side
  split <;> try rfl
  split <;> rfl

theorem rm_user_side_closed (s : WSState) (u r : String) :
    (rm_user_side s u r).closed_handles = s.closed_handles := by
  unfold rm_user_side
  split <;> try rfl
  split <;> rfl

theorem membersOf_rm_room_side (s : WSState) (u r r' : String) :
    membersOf (rm_room_side s u r) r' =
      if r' = r then srem u (membersOf s r) else membersOf s r' := by
  unfold rm_room_side
  cases hm : alookup r s.user_rooms with
  | none =>
      by_cases hr : r' = r
      · subst hr
        simp [membersOf, hm, srem]
      · simp [membersOf, hr]
  | some mem =>
      by_cases hu : u ∈ mem
      · by_cases hsr : srem u mem = []
        · simp only [if_pos hu, if_pos hsr]
          by_cases hr : r' = r
          · subst hr
            simp [membersOf, setRooms, alookup_aerase_self, hm, hsr]
          · simp [membersOf, setRooms, alookup_aerase_ne hr, hr]
        · simp only [if_pos hu, if_neg hsr]
          by_cases hr : r' = r
          · subst hr
            simp [membersOf, setRooms, alookup_aset_self, hm]
          · simp [membersOf, setRooms, alookup_aset_ne hr, hr]
      · simp only [if_neg hu]
        by_cases hr : r' = r
        · subst hr
          simp [membersOf, hm, srem_eq_of_not_mem hu]
        · simp [membersOf, hr]

theorem roomsOf_rm_user_side (s : WSState) (u r u' : String) :
    roomsOf (rm_user_side s u r) u' =
      if u' = u then srem r (roomsOf s u) else roomsOf s u' := by
  unfold rm_user_side
  cases hm : alookup u s.user_to_rooms with
  | none =>
      by_cases hu : u' = u
      · subst hu
        simp [roomsOf, hm, srem]
      · simp [roomsOf, hu]
  | some rl =>
      by_cases hr : r ∈ rl
      · simp only [if_pos hr]
        by_cases hu : u' = u
        · subst hu
          simp [roomsOf, setUserRooms, alookup_aset_self, hm]
        · simp [roomsOf, setUserRooms, alookup_aset_ne hu, hu]
      · simp only [if_neg hr]
        by_cases hu : u' = u
        · subst hu
          simp [roomsOf, hm, srem_eq_of_not_mem hr]
        · simp [roomsOf, hu]

theorem membersOf_rm (s : WSState) (u r r' : String) :
    membersOf (remove_user_from_room s u r) r' =
      if r' = r then srem u (membersOf s r) else membersOf s r' := by
  unfold remove_user_from_room
  rw [show membersOf (rm_user_side (rm_room_side s u r) u r) r' =
        membersOf (rm_room_side s u r) r' from by
      simp [membersOf, rm_user_side_rooms]]
  exact membersOf_rm_room_side s u r r'

theorem roomsOf_rm (s : WSState) (u r u' : String) :
    roomsOf (remove_user_from_room s u r) u' =
      if u' = u then srem r (roomsOf s u) else roomsOf s u' := by
  unfold remove_user_from_room
  rw [roomsOf_rm_user_side]
  rw [show roomsOf (rm_room_side s u r) u = roomsOf s u from by
      simp [roomsOf, rm_room_side_utr]]
  rw [show roomsOf (rm_room_side s u r) u' = roomsOf s u' from by
      simp [roomsOf, rm_room_side_utr]]

theorem rm_active (s : WSState) (u r : String) :
    (remove_user_from_room s u r).active_connections = s.active_connections := by
  unfold remove_user_from_room
  rw [rm_user_side_active, rm_room_side_active]

theorem rm_closed (s : WSState) (u r : String) :
    (remove_user_from_room s u r).closed_handles = s.closed_handles := by
  unfold remove_user_from_room
  rw [rm_user_side_closed, rm_room_side_closed]

theorem alookup_utr_rm_user_side_ne (s : WSState) {u u' : String} (h : u' ≠ u)
    (r : String) :
    alookup u' (rm_user_side s u r).user_to_rooms = alookup u' s.user_to_rooms := by
  unfold rm_user_side
  cases hm : alookup u s.user_to_rooms with
  | none => rfl
  | some rl =>
      by_cases hr : r ∈ rl
      · simp only [if_pos hr, setUserRooms]
        exact alookup_aset_ne h _ _
      · simp only [if_neg hr]

theorem alookup_utr_rm_ne {s : WSState} {u u' : String} (h : u' ≠ u) (r : String) :
    alookup u' (remove_user_from_room s u r).user_to_rooms =
      alookup u' s.user_to_rooms := by
  unfold remove_user_from_room
  rw [alookup_utr_rm_user_side_ne _ h r, rm_room_side_utr]

end FusionWS

namespace FusionWS

theorem leave_all_cons (s : WSState) (u a : String) (L : List String) :
    leave_all s u (a :: L) = leave_all (remove_user_from_room s u a) u L := rfl

theorem leave_all_active (u : String) (L : List String) (s : WSState) :
    (leave_all s u L).active_connections = s.active_connections := by
  induction L generalizing s with
  | nil => rfl
  | cons a L ih => rw [leave_all_cons, ih, rm_active]

theorem leave_all_closed (u : String) (L : List String) (s : WSState) :
    (leave_all s u L).closed_handles = s.closed_handles := by
  induction L generalizing s with
  | nil => rfl
  | cons a L ih => rw [leave_all_cons, ih, rm_closed]

theorem alookup_utr_leave_all_ne {u u' : String} (h : u' ≠ u) (L : List String)
    (s : WSState) :
    alookup u' (leave_all s u L).user_to_rooms = alookup u' s.user_to_rooms := by
  induction L generalizing s with
  | nil => rfl
  | cons a L ih => rw [leave_all_cons, ih, alookup_utr_rm_ne h]

theorem membersOf_leave_all (u r : String) (L : List String) (s : WSState) :
    membersOf (leave_all s u L) r =
      if r ∈ L then srem u (membersOf s r) else membersOf s r := by
  induction L generalizing s with
  | nil => simp [leave_all]
  | cons a L ih =>
      rw [leave_all_cons, ih (remove_user_from_room s u a), membersOf_rm]
      by_cases ha : r = a
      · by_cases hL : r ∈ L <;> simp [ha, hL, srem_srem, List.mem_cons]
      · by_cases hL : r ∈ L <;> simp [ha, hL, List.mem_cons]

theorem alookup_utr_rm_user_side_self {s : WSState} (u r : String)
    (h : (alookup u s.user_to_rooms).isSome = true) :
    (alookup u (rm_user_side s u r).user_to_rooms).isSome = true := by
  unfold rm_user_side
  cases hm : alookup u s.user_to_rooms with
  | none => rw [hm] at h; simp at h
  | some rl =>
      by_cases hr : r ∈ rl
      · simp [if_pos hr, setUserRooms, alookup_aset_self]
      · simp [if_neg hr, hm]

theorem alookup_utr_rm_self {s : WSState} (u r : String)
    (h : (alookup u s.user_to_rooms).isSome = true) :
    (alookup u (remove_user_from_room s u r).user_to_rooms).isSome = true := by
  unfold remove_user_from_room
  exact alookup_utr_rm_user_side_self u r (by rw [rm_room_side_utr]; exact h)

theorem alookup_utr_leave_all_self {u : String} (L : List String) (s : WSState)
    (h : (alookup u s.user_to_rooms).isSome = true) :
    (alookup u (leave_all s u L).user_to_rooms).isSome = true := by
  induction L generalizing s with
  | nil => exact h
  | cons a L ih => rw [leave_all_cons]; exact ih _ (alookup_utr_rm_self u a h)

theorem edgeInv_rm {s : WSState} (h : edgeInv s) (u r : String) :
    edgeInv (remove_user_from_room s u r) := by
  intro u' r'
  rw [show (u' ∈ membersOf (remove_user_from_room s u r) r') =
        (u' ∈ if r' = r then srem u (membersOf s r) else membersOf s r') from by
      rw [membersOf_rm]]
  rw [show (r' ∈ roomsOf (remove_user_from_room s u r) u') =
        (r' ∈ if u' = u then srem r (roomsOf s u) else roomsOf s u') from by
      rw [roomsOf_rm]]
  by_cases hr : r' = r
  · subst hr
    by_cases hu : u' = u
    · subst hu
      simp [mem_srem]
    · simp [mem_srem, hu, h u' r']
  · by_cases hu : u' = u
    · subst hu
      simp [mem_srem, hr, h u' r']
    · simp [hr, hu, h u' r']

theorem connInv_rm {s : WSState} (h : connInv s) (u r : String) :
    connInv (remove_user_from_room s u r) := by
  intro v hv
  rw [show isConnected (remove_user_from_room s u r) v = isConnected s v from by
      simp [isConnected, rm_active]] at hv
  by_cases huv : v = u
  · subst huv
    exact alookup_utr_rm_self v r (h v hv)
  · rw [alookup_utr_rm_ne huv]
    exact h v hv

end FusionWS

namespace FusionWS

theorem handle_chat_message_fst (s : WSState) (u : String) (d : InData)
    (now : String) : (handle_chat_message s u d now).1 = s := by
  unfold handle_chat_message
  dsimp only
  split
  · rfl
  · split <;> rfl

theorem handle_typing_indicator_fst (s : WSState) (u : String) (d : InData)
    (now : String) : (handle_typing_indicator s u d now).1 = s := by
  unfold handle_typing_indicator
  dsimp only
  split
  · rfl
  · split <;> rfl

theorem handle_user_status_fst (s : WSState) (u : String) (d : InData)
    (now : String) : (handle_user_status s u d now).1 = s := by
  unfold handle_user_status
  split <;> rfl

theorem handle_community_update_fst (s : WSState) (u : String) (d : InData)
    (now : String) : (handle_community_update s u d now).1 = s := by
  unfold handle_community_update
  split <;> rfl

theorem handle_post_update_fst (s : WSState) (u : String) (d : InData)
    (now : String) : (handle_post_update s u d now).1 = s := by
  unfold handle_post_update
  split <;> rfl

theorem handle_leave_room_fst (s : WSState) (u : String) (d : InData)
    (now : String) :
    (handle_leave_room s u d now).1 =
      if falsy d.room_id then s
      else remove_user_from_room s u (d.room_id.getD "") := by
  unfold handle_leave_room
  split <;> rfl

theorem handle_message_fst (s : WSState) (u : String) (d : InData) (now : String) :
    (handle_message s u d now).1 =
      if isHandled d.type then (run_handler s u d now).1 else s := by
  unfold handle_message
  dsimp only
  split
  · split <;> rfl
  · rfl

theorem connect_fst (s : WSState) (u : String) (h : Nat) (now : String) :
    (connect s u h now).1 =
      ⟨aset u h s.active_connections, s.user_rooms,
        aset u [] s.user_to_rooms, s.closed_handles⟩ := rfl

theorem noRoomsB_spec {s : WSState} {u : String} (h : noRoomsB s u = true) :
    ∀ r, u ∉ membersOf s r := by
  intro r hmem
  unfold membersOf at hmem
  cases hm : alookup r s.user_rooms with
  | none => rw [hm] at hmem; simp at hmem
  | some mem =>
      rw [hm] at hmem
      simp only [Option.getD_some] at hmem
      have hin := alookup_mem hm
      have := (List.all_eq_true.mp h) _ hin
      exact (of_decide_eq_true this) hmem

theorem goodInv_connect {s : WSState} (he : edgeInv s) (hcI : connInv s)
    {u : String} (hg : ∀ r, u ∉ membersOf s r) (h : Nat) (now : String) :
    edgeInv (connect s u h now).1 ∧ connInv (connect s u h now).1 := by
  rw [connect_fst]
  constructor
  · intro u' r
    by_cases hu : u' = u
    · subst hu
      rw [show membersOf ⟨aset u' h s.active_connections, s.user_rooms,
            aset u' [] s.user_to_rooms, s.closed_handles⟩ r = membersOf s r from rfl]
      rw [show roomsOf ⟨aset u' h s.active_connections, s.user_rooms,
            aset u' [] s.user_to_rooms, s.closed_handles⟩ u' =
          ((alookup u' (aset u' ([] : List String) s.user_to_rooms)).getD []) from rfl]
      rw [alookup_aset_self]
      simp [hg r]
    · rw [show membersOf ⟨aset u h s.active_connections, s.user_rooms,
            aset u [] s.user_to_rooms, s.closed_handles⟩ r = membersOf s r from rfl]
      rw [show roomsOf ⟨aset u h s.active_connections, s.user_rooms,
            aset u [] s.user_to_rooms, s.closed_handles⟩ u' =
          ((alookup u' (aset u ([] : List String) s.user_to_rooms)).getD []) from rfl]
      rw [alookup_aset_ne hu]
      exact he u' r
  · intro v hv
    by_cases hu : v = u
    · subst hu
      show (alookup v (aset v ([] : List String) s.user_to_rooms)).isSome = true
      rw [alookup_aset_self]
      rfl
    · show (alookup v (aset u ([] : List String) s.user_to_rooms)).isSome = true
      rw [alookup_aset_ne hu]
      apply hcI
      unfold isConnected at hv ⊢
      rw [show (⟨aset u h s.active_connections, s.user_rooms,
            aset u [] s.user_to_rooms, s.closed_handles⟩ : WSState).active_connections
          = aset u h s.active_connections from rfl] at hv
      rw [alookup_aset_ne hu] at hv
      exact hv

end FusionWS

namespace FusionWS

theorem membersOf_eq (s : WSState) (r : String) :
    membersOf s r = (alookup r s.user_rooms).getD [] := rfl

theorem roomsOf_eq (s : WSState) (u : String) :
    roomsOf s u = (alookup u s.user_to_rooms).getD [] := rfl

theorem goodInv_join {s : WSState} (he : edgeInv s) (hcI : connInv s)
    {u : String} (hc : isConnected s u = true) (d : InData) (now : String) :
    edgeInv (handle_join_room s u d now).1 ∧ connInv (handle_join_room s u d now).1 := by
  by_cases hf : falsy d.room_id = true
  · have hfst : (handle_join_room s u d now).1 = s := by
      unfold handle_join_room
      rw [if_pos hf]
    rw [hfst]
    exact ⟨he, hcI⟩
  · have hsome := hcI u hc
    cases hrl : alookup u s.user_to_rooms with
    | none => rw [hrl] at hsome; simp at hsome
    | some rl =>
        have hru : roomsOf s u = rl := by rw [roomsOf_eq, hrl]; rfl
        have hfst : (handle_join_room s u d now).1 =
            ⟨s.active_connections,
              aset (d.room_id.getD "") (sadd u (membersOf s (d.room_id.getD "")))
                s.user_rooms,
              aset u (sadd (d.room_id.getD "") rl) s.user_to_rooms,
              s.closed_handles⟩ := by
          unfold handle_join_room
          rw [if_neg hf]
          simp only [setRooms, setUserRooms]
          rw [hrl]
        rw [hfst]
        constructor
        · intro u' r'
          show u' ∈ (alookup r' (aset (d.room_id.getD "")
                (sadd u (membersOf s (d.room_id.getD ""))) s.user_rooms)).getD [] ↔
              r' ∈ (alookup u' (aset u (sadd (d.room_id.getD "") rl)
                s.user_to_rooms)).getD []
          by_cases hr : r' = d.room_id.getD ""
          · rw [hr, alookup_aset_self]
            by_cases hu : u' = u
            · rw [hu, alookup_aset_self]
              simp [mem_sadd]
            · rw [alookup_aset_ne hu]
              simp only [Option.getD_some, mem_sadd]
              have hiff := he u' (d.room_id.getD "")
              rw [roomsOf_eq] at hiff
              simp [hu, hiff]
          · rw [alookup_aset_ne hr]
            by_cases hu : u' = u
            · rw [hu, alookup_aset_self]
              simp only [Option.getD_some, mem_sadd]
              have hiff := he u r'
              rw [hru] at hiff
              rw [membersOf_eq] at hiff
              simp [hr, hiff]
            · rw [alookup_aset_ne hu]
              exact he u' r'
        · intro v hv
          have hv' : isConnected s v = true := hv
          show (alookup v (aset u (sadd (d.room_id.getD "") rl)
            s.user_to_rooms)).isSome = true
          by_cases hvu : v = u
          · rw [hvu, alookup_aset_self]
            rfl
          · rw [alookup_aset_ne hvu]
            exact hcI v hv'

theorem disconnect_fst {s : WSState} {u : String} (now : String)
    (hc : isConnected s u = true) :
    (disconnect s u now).1 =
      ⟨aerase u (leave_all s u (roomsOf s u)).active_connections,
        (leave_all s u (roomsOf s u)).user_rooms,
        aerase u (leave_all s u (roomsOf s u)).user_to_rooms,
        (leave_all s u (roomsOf s u)).closed_handles⟩ := by
  unfold disconnect
  rw [if_pos hc]

theorem disconnect_fst_not {s : WSState} {u : String} (now : String)
    (hc : ¬ isConnected s u = true) : (disconnect s u now).1 = s := by
  unfold disconnect
  rw [if_neg hc]

theorem membersOf_disconnect {s : WSState} {u : String} (now : String)
    (hc : isConnected s u = true) (r : String) :
    membersOf (disconnect s u now).1 r =
      membersOf (leave_all s u (roomsOf s u)) r := by
  rw [disconnect_fst now hc]
  rfl

theorem roomsOf_disconnect_self {s : WSState} {u : String} (now : String)
    (hc : isConnected s u = true) :
    roomsOf (disconnect s u now).1 u = [] := by
  rw [disconnect_fst now hc]
  show (alookup u (aerase u (leave_all s u (roomsOf s u)).user_to_rooms)).getD [] = []
  rw [alookup_aerase_self]
  rfl

theorem roomsOf_disconnect_ne {s : WSState} {u u' : String} (now : String)
    (hc : isConnected s u = true) (hu : u' ≠ u) :
    roomsOf (disconnect s u now).1 u' = roomsOf s u' := by
  rw [disconnect_fst now hc]
  show (alookup u' (aerase u (leave_all s u (roomsOf s u)).user_to_rooms)).getD [] =
    roomsOf s u'
  rw [alookup_aerase_ne hu, alookup_utr_leave_all_ne hu]
  rfl

theorem isConnected_disconnect_self {s : WSState} {u : String} (now : String)
    (hc : isConnected s u = true) :
    isConnected (disconnect s u now).1 u = false := by
  rw [disconnect_fst now hc]
  show (alookup u (aerase u (leave_all s u (roomsOf s u)).active_connections)).isSome
    = false
  rw [alookup_aerase_self]
  rfl

theorem isConnected_disconnect_ne {s : WSState} {u v : String} (now : String)
    (hc : isConnected s u = true) (hv : v ≠ u) :
    isConnected (disconnect s u now).1 v = isConnected s v := by
  rw [disconnect_fst now hc]
  show (alookup v (aerase u (leave_all s u (roomsOf s u)).active_connections)).isSome
    = isConnected s v
  rw [alookup_aerase_ne hv, leave_all_active]
  rfl

theorem alookup_utr_disconnect_ne {s : WSState} {u v : String} (now : String)
    (hc : isConnected s u = true) (hv : v ≠ u) :
    alookup v (disconnect s u now).1.user_to_rooms = alookup v s.user_to_rooms := by
  rw [disconnect_fst now hc]
  show alookup v (aerase u (leave_all s u (roomsOf s u)).user_to_rooms) =
    alookup v s.user_to_rooms
  rw [alookup_aerase_ne hv, alookup_utr_leave_all_ne hv]

theorem edgeInv_disconnect {s : WSState} (he : edgeInv s) (u now : String) :
    edgeInv (disconnect s u now).1 := by
  by_cases hc : isConnected s u = true
  · intro u' r
    rw [membersOf_disconnect now hc r, membersOf_leave_all]
    by_cases hu : u' = u
    · rw [hu, roomsOf_disconnect_self now hc]
      by_cases hL : r ∈ roomsOf s u
      · simp [hL, mem_srem]
      · simp only [if_neg hL, List.not_mem_nil, iff_false]
        intro hmem
        exact hL ((he u r).mp hmem)
    · rw [roomsOf_disconnect_ne now hc hu]
      by_cases hL : r ∈ roomsOf s u
      · simp [hL, mem_srem, hu, he u' r]
      · simp [hL, he u' r]
  · rw [disconnect_fst_not now hc]
    exact he

theorem connInv_disconnect {s : WSState} (hcI : connInv s) (u now : String) :
    connInv (disconnect s u now).1 := by
  by_cases hc : isConnected s u = true
  · intro v hv
    by_cases hvu : v = u
    · rw [hvu, isConnected_disconnect_self now hc] at hv
      simp at hv
    · rw [isConnected_disconnect_ne now hc hvu] at hv
      rw [alookup_utr_disconnect_ne now hc hvu]
      exact hcI v hv
  · rw [disconnect_fst_not now hc]
    exact hcI

theorem goodInv_run_handler {s : WSState} (he : edgeInv s) (hcI : connInv s)
    {u : String} (hc : isConnected s u = true) (d : InData) (now : String) :
    edgeInv (run_handler s u d now).1 ∧ connInv (run_handler s u d now).1 := by
  unfold run_handler
  split_ifs with h1 h2 h3 h4 h5 h6
  · rw [handle_chat_message_fst]
    exact ⟨he, hcI⟩
  · exact goodInv_join he hcI hc d now
  · rw [handle_leave_room_fst]
    split
    · exact ⟨he, hcI⟩
    · exact ⟨edgeInv_rm he _ _, connInv_rm hcI _ _⟩
  · rw [handle_typing_indicator_fst]
    exact ⟨he, hcI⟩
  · rw [handle_user_status_fst]
    exact ⟨he, hcI⟩
  · rw [handle_community_update_fst]
    exact ⟨he, hcI⟩
  · rw [handle_post_update_fst]
    exact ⟨he, hcI⟩

theorem goodInv_handle_message {s : WSState} (he : edgeInv s) (hcI : connInv s)
    {u : String} (hc : isConnected s u = true) (d : InData) (now : String) :
    edgeInv (handle_message s u d now).1 ∧ connInv (handle_message s u d now).1 := by
  rw [handle_message_fst]
  split
  · exact goodInv_run_handler he hcI hc d now
  · exact ⟨he, hcI⟩

theorem edgeInv_empty : edgeInv empty_state := by
  intro u r
  simp [membersOf, roomsOf, empty_state, alookup]

theorem connInv_empty : connInv empty_state := by
  intro u hu
  simp [isConnected, empty_state, alookup] at hu

theorem reachSafe_goodInv {s : WSState} (h : ReachSafe s) :
    edgeInv s ∧ connInv s := by
  induction h with
  | init => exact ⟨edgeInv_empty, connInv_empty⟩
  | conn u hh now _ hg ih =>
      exact goodInv_connect ih.1 ih.2 (noRoomsB_spec hg) hh now
  | msg u d now _ hc ih =>
      exact goodInv_handle_message ih.1 ih.2 hc d now
  | disc u now _ ih =>
      exact ⟨edgeInv_disconnect ih.1 u now, connInv_disconnect ih.2 u now⟩

end FusionWS

namespace FusionWS

theorem roomsInv_rm_room_side {s : WSState} (h : roomsInv s) (u r : String) :
    roomsInv (rm_room_side s u r) := by
  intro r' m hm'
  unfold rm_room_side at hm'
  revert hm'
  cases hm : alookup r s.user_rooms with
  | none => intro hm'; exact h r' m hm'
  | some mem =>
      dsimp only
      by_cases humem : u ∈ mem
      · by_cases hempty : srem u mem = []
        · rw [if_pos humem, if_pos hempty]
          intro hm'
          rw [show (setRooms s (aerase r s.user_rooms)).user_rooms =
                aerase r s.user_rooms from rfl] at hm'
          by_cases hr : r' = r
          · rw [hr, alookup_aerase_self] at hm'
            exact absurd hm' (by simp)
          · rw [alookup_aerase_ne hr] at hm'
            exact h r' m hm'
        · rw [if_pos humem, if_neg hempty]
          intro hm'
          rw [show (setRooms s (aset r (srem u mem) s.user_rooms)).user_rooms =
                aset r (srem u mem) s.user_rooms from rfl] at hm'
          by_cases hr : r' = r
          · rw [hr, alookup_aset_self] at hm'
            injection hm' with h2
            rw [h2] at hempty
            exact hempty
          · rw [alookup_aset_ne hr] at hm'
            exact h r' m hm'
      · rw [if_neg humem]
        intro hm'
        exact h r' m hm'

theorem roomsInv_rm {s : WSState} (h : roomsInv s) (u r : String) :
    roomsInv (remove_user_from_room s u r) := by
  intro r' m hm'
  rw [show (remove_user_from_room s u r).user_rooms =
        (rm_room_side s u r).user_rooms from rm_user_side_rooms _ _ _] at hm'
  exact roomsInv_rm_room_side h u r r' m hm'

theorem roomsInv_leave_all {s : WSState} (h : roomsInv s) (u : String)
    (L : List String) : roomsInv (leave_all s u L) := by
  induction L generalizing s with
  | nil => exact h
  | cons a L ih => rw [leave_all_cons]; exact ih (roomsInv_rm h u a)

theorem handle_join_room_user_rooms {s : WSState} {u : String} {d : InData}
    {now : String} (hf : falsy d.room_id = false) :
    (handle_join_room s u d now).1.user_rooms =
      aset (d.room_id.getD "") (sadd u (membersOf s (d.room_id.getD "")))
        s.user_rooms := by
  unfold handle_join_room
  rw [if_neg (by rw [hf]; exact Bool.false_ne_true)]
  simp only [setRooms, setUserRooms]
  cases halo : alookup u s.user_to_rooms <;> rfl

theorem roomsInv_aset_sadd {s : WSState} (h : roomsInv s) (r : String)
    (u : String) :
    ∀ r' m, alookup r' (aset r (sadd u (membersOf s r)) s.user_rooms) = some m →
      m ≠ [] := by
  intro r' m hm
  by_cases hr : r' = r
  · rw [hr, alookup_aset_self] at hm
    injection hm with h2
    rw [← h2]
    exact sadd_ne_nil u (membersOf s r)
  · rw [alookup_aset_ne hr] at hm
    exact h r' m hm

theorem roomsInv_join {s : WSState} (h : roomsInv s) (u : String) (d : InData)
    (now : String) : roomsInv (handle_join_room s u d now).1 := by
  by_cases hf : falsy d.room_id = true
  · have hfst : (handle_join_room s u d now).1 = s := by
      unfold handle_join_room
      rw [if_pos hf]
    rw [hfst]
    exact h
  · intro r' m hm
    rw [handle_join_room_user_rooms (Bool.not_eq_true _ ▸ hf)] at hm
    exact roomsInv_aset_sadd h _ u r' m hm

theorem roomsInv_disconnect {s : WSState} (h : roomsInv s) (u now : String) :
    roomsInv (disconnect s u now).1 := by
  by_cases hc : isConnected s u = true
  · intro r' m hm
    rw [show (disconnect s u now).1.user_rooms =
          (leave_all s u (roomsOf s u)).user_rooms from by
        rw [disconnect_fst now hc]] at hm
    exact roomsInv_leave_all h u (roomsOf s u) r' m hm
  · rw [disconnect_fst_not now hc]
    exact h

theorem roomsInv_connect {s : WSState} (h : roomsInv s) (u : String) (hh : Nat)
    (now : String) : roomsInv (connect s u hh now).1 := by
  intro r' m hm
  rw [show (connect s u hh now).1.user_rooms = s.user_rooms from by
      rw [connect_fst]] at hm
  exact h r' m hm

theorem roomsInv_handle_message {s : WSState} (h : roomsInv s) (u : String)
    (d : InData) (now : String) : roomsInv (handle_message s u d now).1 := by
  rw [handle_message_fst]
  split
  · unfold run_handler
    split_ifs with h1 h2 h3 h4 h5 h6
    · rw [handle_chat_message_fst]
      exact h
    · exact roomsInv_join h u d now
    · rw [handle_leave_room_fst]
      split
      · exact h
      · exact roomsInv_rm h u _
    · rw [handle_typing_indicator_fst]
      exact h
    · rw [handle_user_status_fst]
      exact h
    · rw [handle_community_update_fst]
      exact h
    · rw [handle_post_update_fst]
      exact h
  · exact h

theorem roomsInv_empty : roomsInv empty_state := by
  intro r m hm
  simp [empty_state, alookup] at hm

theorem reach_roomsInv {s : WSState} (h : Reach s) : roomsInv s := by
  induction h with
  | init => exact roomsInv_empty
  | conn u hh now _ ih => exact roomsInv_connect ih u hh now
  | msg u d now _ _ ih => exact roomsInv_handle_message ih u d now
  | disc u now _ ih => exact roomsInv_disconnect ih u now

theorem connect_closed (s : WSState) (u : String) (h : Nat) (now : String) :
    (connect s u h now).1.closed_handles = s.closed_handles := rfl

theorem disconnect_closed (s : WSState) (u now : String) :
    (disconnect s u now).1.closed_handles = s.closed_handles := by
  by_cases hc : isConnected s u = true
  · rw [disconnect_fst now hc]
    exact leave_all_closed u (roomsOf s u) s
  · rw [disconnect_fst_not now hc]

theorem handle_join_room_closed (s : WSState) (u : String) (d : InData)
    (now : String) : (handle_join_room s u d now).1.closed_handles =
      s.closed_handles := by
  unfold handle_join_room
  dsimp only
  split
  · rfl
  · simp only [setRooms, setUserRooms]
    cases halo : alookup u (⟨s.active_connections,
        aset (d.room_id.getD "") (sadd u (membersOf s (d.room_id.getD "")))
          s.user_rooms, s.user_to_rooms, s.closed_handles⟩ : WSState).user_to_rooms
      <;> rfl

theorem handle_message_closed (s : WSState) (u : String) (d : InData)
    (now : String) :
    (handle_message s u d now).1.closed_handles = s.closed_handles := by
  rw [handle_message_fst]
  split
  · unfold run_handler
    split_ifs with h1 h2 h3 h4 h5 h6
    · rw [handle_chat_message_fst]
    · exact handle_join_room_closed s u d now
    · rw [handle_leave_room_fst]
      split
      · rfl
      · exact rm_closed s u _
    · rw [handle_typing_indicator_fst]
    · rw [handle_user_status_fst]
    · rw [handle_community_update_fst]
    · rw [handle_post_update_fst]
  · rfl

end FusionWS

namespace FusionWS

theorem filterMap_no_excl (m : Json) (l : List (String × Nat)) :
    (l.filterMap (fun p => if excludes none p.1 then none else some (p.1, m))) =
      l.map (fun p => (p.1, m)) := by
  induction l with
  | nil => rfl
  | cons a t ih =>
      have hhead : (if excludes none a.1 then none else some (a.1, m)) =
          some (a.1, m) := rfl
      rw [List.filterMap_cons, hhead]
      dsimp only
      rw [List.map_cons, ih]

theorem broadcast_to_all_none (s : WSState) (m : Json) :
    broadcast_to_all s m none = s.active_connections.map (fun p => (p.1, m)) :=
  filterMap_no_excl m s.active_connections

theorem filterMap_excl (m : Json) {u : String} (hu : u ≠ "")
    (l : List (String × Nat)) :
    (l.filterMap (fun p => if excludes (some u) p.1 then none else some (p.1, m))) =
      (l.filter (fun p => !(p.1 == u))).map (fun p => (p.1, m)) := by
  induction l with
  | nil => rfl
  | cons a t ih =>
      have hhead : (if excludes (some u) a.1 then none else some (a.1, m)) =
          if a.1 = u then none else some (a.1, m) := by
        by_cases h : a.1 = u <;> simp [excludes, hu, h]
      rw [List.filterMap_cons, hhead, List.filter_cons]
      by_cases h : a.1 = u
      · rw [if_pos h]
        dsimp only
        rw [show (!(a.1 == u)) = false from by simp [h]]
        rw [if_neg (by exact Bool.false_ne_true), ih]
      · rw [if_neg h]
        dsimp only
        rw [show (!(a.1 == u)) = true from by simp [h]]
        rw [if_pos rfl, List.map_cons, ih]

theorem broadcast_to_all_excl (s : WSState) (m : Json) {u : String} (hu : u ≠ "") :
    broadcast_to_all s m (some u) =
      (s.active_connections.filter (fun p => !(p.1 == u))).map (fun p => (p.1, m)) :=
  filterMap_excl m hu s.active_connections

theorem broadcast_to_room_none {s : WSState} {r : String} {mem : List String}
    (hm : alookup r s.user_rooms = some mem) (m : Json) :
    broadcast_to_room s r m none =
      mem.filterMap (fun v => if isConnected s v then some (v, m) else none) := by
  unfold broadcast_to_room
  rw [hm]
  rfl

theorem broadcast_to_room_absent {s : WSState} {r : String}
    (hm : alookup r s.user_rooms = none) (m : Json) (ex : Option String) :
    broadcast_to_room s r m ex = [] := by
  unfold broadcast_to_room
  rw [hm]

theorem mem_filterMap_connected {s : WSState} {u : String} {mem : List String}
    (m : Json) (hu : u ∈ mem) (hc : isConnected s u = true) :
    (u, m) ∈ mem.filterMap (fun v => if isConnected s v then some (v, m) else none) := by
  rw [List.mem_filterMap]
  exact ⟨u, hu, by rw [if_pos hc]⟩

theorem handle_message_unknown {s : WSState} {u : String} {d : InData}
    {now : String} (hh : isHandled d.type = false) :
    handle_message s u d now =
      (s, send_personal_message s u
        (error_envelope ("Unknown message type: " ++ tagStr d.type) now)) := by
  unfold handle_message
  rw [if_neg (by rw [hh]; exact Bool.false_ne_true)]

theorem handle_message_run {s : WSState} {u : String} {d : InData} {now : String}
    (hh : isHandled d.type = true)
    (hexc : (run_handler s u d now).2.2 = false) :
    handle_message s u d now =
      ((run_handler s u d now).1, (run_handler s u d now).2.1) := by
  unfold handle_message
  rw [if_pos hh]
  dsimp only
  rw [if_neg (by rw [hexc]; exact Bool.false_ne_true)]

theorem handle_message_exc {s : WSState} {u : String} {d : InData} {now : String}
    (hh : isHandled d.type = true)
    (hexc : (run_handler s u d now).2.2 = true) :
    handle_message s u d now =
      ((run_handler s u d now).1,
        (run_handler s u d now).2.1 ++
          send_personal_message (run_handler s u d now).1 u
            (error_envelope ("Error processing " ++ tagStr d.type) now)) := by
  unfold handle_message
  rw [if_pos hh]
  dsimp only
  rw [if_pos hexc]

theorem run_handler_chat {s : WSState} {u : String} {d : InData} {now : String}
    (hd : d.type = some "chat_message") :
    run_handler s u d now = handle_chat_message s u d now := by
  unfold run_handler
  rw [hd, if_pos rfl]

theorem run_handler_join {s : WSState} {u : String} {d : InData} {now : String}
    (hd : d.type = some "join_room") :
    run_handler s u d now = handle_join_room s u d now := by
  unfold run_handler
  rw [hd, if_neg (by decide), if_pos rfl]

theorem run_handler_leave {s : WSState} {u : String} {d : InData} {now : String}
    (hd : d.type = some "leave_room") :
    run_handler s u d now = handle_leave_room s u d now := by
  unfold run_handler
  rw [hd, if_neg (by decide), if_neg (by decide), if_pos rfl]

theorem run_handler_typing {s : WSState} {u : String} {d : InData} {now : String}
    (hd : d.type = some "typing_indicator") :
    run_handler s u d now = handle_typing_indicator s u d now := by
  unfold run_handler
  rw [hd, if_neg (by decide), if_neg (by decide), if_neg (by decide), if_pos rfl]

theorem run_handler_status {s : WSState} {u : String} {d : InData} {now : String}
    (hd : d.type = some "user_status") :
    run_handler s u d now = handle_user_status s u d now := by
  unfold run_handler
  rw [hd, if_neg (by decide), if_neg (by decide), if_neg (by decide),
    if_neg (by decide), if_pos rfl]

theorem handle_chat_message_err1 {s : WSState} {u : String} {d : InData}
    {now : String}
    (h : (falsy d.room_id || (pystrip (d.content.getD "") == "")) = true) :
    handle_chat_message s u d now =
      (s, send_personal_message s u
        (error_envelope "Room ID and content are required" now), false) := by
  unfold handle_chat_message
  dsimp only
  rw [if_pos h]

theorem handle_chat_message_err2 {s : WSState} {u : String} {d : InData}
    {now : String}
    (h : (falsy d.room_id || (pystrip (d.content.getD "") == "")) = false)
    (h2 : ¬ (d.room_id.getD "") ∈ roomsOf s u) :
    handle_chat_message s u d now =
      (s, send_personal_message s u
        (error_envelope "You are not in this room" now), false) := by
  unfold handle_chat_message
  dsimp only
  rw [if_neg (by rw [h]; exact Bool.false_ne_true), if_pos h2]

theorem handle_chat_message_ok {s : WSState} {u : String} {d : InData}
    {now : String}
    (h : (falsy d.room_id || (pystrip (d.content.getD "") == "")) = false)
    (h2 : (d.room_id.getD "") ∈ roomsOf s u) :
    handle_chat_message s u d now =
      (s, broadcast_to_room s (d.room_id.getD "")
        [("type", "chat_message"), ("room_id", d.room_id.getD ""),
         ("user_id", u), ("content", pystrip (d.content.getD "")),
         ("message_type", d.message_type.getD "text"), ("timestamp", now),
         ("message_id", u ++ "_" ++ now)] none, false) := by
  unfold handle_chat_message
  dsimp only
  rw [if_neg (by rw [h]; exact Bool.false_ne_true), if_neg (by
    intro hcon
    exact hcon h2)]

theorem handle_leave_room_falsy {s : WSState} {u : String} {d : InData}
    {now : String} (h : falsy d.room_id = true) :
    handle_leave_room s u d now = (s, [], false) := by
  unfold handle_leave_room
  rw [if_pos h]

theorem handle_typing_indicator_falsy {s : WSState} {u : String} {d : InData}
    {now : String} (h : falsy d.room_id = true) :
    handle_typing_indicator s u d now = (s, [], false) := by
  unfold handle_typing_indicator
  dsimp only
  rw [if_pos h]

theorem handle_user_status_invalid {s : WSState} {u : String} {d : InData}
    {now : String} (h : validStatus d.status = false) :
    handle_user_status s u d now = (s, [], false) := by
  unfold handle_user_status
  rw [if_neg (by rw [h]; exact Bool.false_ne_true)]

theorem handle_user_status_valid {s : WSState} {u : String} {d : InData}
    {now : String} (h : validStatus d.status = true) :
    handle_user_status s u d now =
      (s, broadcast_to_all s
        [("type", "user_status_update"), ("user_id", u),
         ("status", d.status.getD ""), ("custom_message", d.custom_message.getD ""),
         ("timestamp", now)] (some u), false) := by
  unfold handle_user_status
  rw [if_pos h]

theorem handle_join_room_falsy {s : WSState} {u : String} {d : InData}
    {now : String} (h : falsy d.room_id = true) :
    handle_join_room s u d now =
      (s, send_personal_message s u (error_envelope "Room ID is required" now),
        false) := by
  unfold handle_join_room
  rw [if_pos h]

theorem handle_join_room_keyerror {s : WSState} {u : String} {d : InData}
    {now : String} (hf : falsy d.room_id = false)
    (halo : alookup u s.user_to_rooms = none) :
    handle_join_room s u d now =
      (⟨s.active_connections,
        aset (d.room_id.getD "") (sadd u (membersOf s (d.room_id.getD "")))
          s.user_rooms,
        s.user_to_rooms, s.closed_handles⟩, [], true) := by
  unfold handle_join_room
  rw [if_neg (by rw [hf]; exact Bool.false_ne_true)]
  simp only [setRooms]
  rw [halo]

theorem handle_chat_message_exc (s : WSState) (u : String) (d : InData)
    (now : String) : (handle_chat_message s u d now).2.2 = false := by
  unfold handle_chat_message
  dsimp only
  split
  · rfl
  · split <;> rfl

theorem handle_leave_room_exc (s : WSState) (u : String) (d : InData)
    (now : String) : (handle_leave_room s u d now).2.2 = false := by
  unfold handle_leave_room
  split <;> rfl

theorem handle_typing_indicator_exc (s : WSState) (u : String) (d : InData)
    (now : String) : (handle_typing_indicator s u d now).2.2 = false := by
  unfold handle_typing_indicator
  dsimp only
  split
  · rfl
  · split <;> rfl

theorem handle_user_status_exc (s : WSState) (u : String) (d : InData)
    (now : String) : (handle_user_status s u d now).2.2 = false := by
  unfold handle_user_status
  split <;> rfl

end FusionWS

namespace FusionWS

theorem reach_demo1 : Reach demo1 := Reach.conn "u1" 1 "t0" Reach.init

theorem reach_demo2 : Reach demo2 := Reach.conn "u2" 2 "t1" reach_demo1

theorem reach_demo3 : Reach demo3 :=
  Reach.msg "u1" (joinMsg "r1") "t2" reach_demo2 (by decide)

theorem reach_demo4 : Reach demo4 :=
  Reach.msg "u2" (joinMsg "r1") "t3" reach_demo3 (by decide)

theorem reach_demo5 : Reach demo5 := Reach.conn "u1" 3 "t4" reach_demo3

theorem demo1_safe : ReachSafe demo1 :=
  ReachSafe.conn "u1" 1 "t0" ReachSafe.init (by decide)

theorem demo2_safe : ReachSafe demo2 :=
  ReachSafe.conn "u2" 2 "t1" demo1_safe (by decide)

theorem demo3_safe : ReachSafe demo3 :=
  ReachSafe.msg "u1" (joinMsg "r1") "t2" demo2_safe (by decide)

theorem demo4_safe : ReachSafe demo4 :=
  ReachSafe.msg "u2" (joinMsg "r1") "t3" demo3_safe (by decide)

/-- C1 (corrected): the bidirectional membership invariant holds for every
state reachable by the public operations, provided connect is only invoked
for an identity that is currently a member of no room (first connects, and
reconnects preceded by disconnect); an unguarded reconnect breaks it, see
the counterexample. -/
theorem C1_theorem : ∀ s, ReachSafe s →
    ∀ u r, u ∈ membersOf s r ↔ r ∈ roomsOf s u :=
  fun _ h u r => (reachSafe_goodInv h).1 u r

/-- C1 witness: the invariant instantiated at a concrete safely reached
state, identity u1 and room r1. -/
theorem C1_witness : "u1" ∈ membersOf demo3 "r1" ↔ "r1" ∈ roomsOf demo3 "u1" :=
  C1_theorem demo3 demo3_safe "u1" "r1"

/-- C1 counterexample: connect u1, join r1, connect u1 again is a sequence
of the public operations after which u1 is in members_of(r1) while r1 is
not in rooms_of(u1), refuting the claimed invariant over all sequences. -/
theorem C1_counterexample :
    ∃ s, Reach s ∧ ¬ ("u1" ∈ membersOf s "r1" ↔ "r1" ∈ roomsOf s "u1") :=
  ⟨demo5, reach_demo5, by decide⟩

/-- C2 (amended): a second connect for an identity replaces the stored
handle, so the registry keeps at most one handle per identity, but the
replaced handle is never closed: no public operation ever closes a
handle. -/
theorem C2_theorem (s : WSState) (u : String) (h : Nat) (d : InData)
    (now : String) :
    alookup u (connect s u h now).1.active_connections = some h ∧
    (connect s u h now).1.closed_handles = s.closed_handles ∧
    (disconnect s u now).1.closed_handles = s.closed_handles ∧
    (handle_message s u d now).1.closed_handles = s.closed_handles := by
  refine ⟨?_, rfl, disconnect_closed s u now, handle_message_closed s u d now⟩
  show alookup u (aset u h s.active_connections) = some h
  exact alookup_aset_self u h s.active_connections

/-- C2 counterexample: connecting u1 twice stores handle 2 over handle 1
while the set of closed handles stays empty, so the old handle is not
closed before the new one is stored, refuting the claim. -/
theorem C2_counterexample :
    alookup "u1" (connect empty_state "u1" 1 "t0").1.active_connections = some 1 ∧
    alookup "u1" (connect (connect empty_state "u1" 1 "t0").1 "u1" 2
      "t1").1.active_connections = some 2 ∧
    (connect (connect empty_state "u1" 1 "t0").1 "u1" 2 "t1").1.closed_handles
      = [] :=
  ⟨rfl, rfl, rfl⟩

/-- C9 (confirmed): in every state reachable by the public operations from
the empty state, every room is either absent from the index or has a
non-empty member set. -/
theorem C9_theorem : ∀ s, Reach s →
    ∀ r, alookup r s.user_rooms = none ∨ membersOf s r ≠ [] := by
  intro s h r
  cases hm : alookup r s.user_rooms with
  | none => exact Or.inl rfl
  | some m =>
      right
      rw [membersOf_eq, hm]
      exact reach_roomsInv h r m hm

/-- C9 witness: the invariant instantiated at a concrete reached state and
room r1. -/
theorem C9_witness :
    alookup "r1" demo4.user_rooms = none ∨ membersOf demo4 "r1" ≠ [] :=
  C9_theorem demo4 reach_demo4 "r1"

/-- C10 (confirmed): connect unconditionally resets the identity-to-rooms
entry of the connecting identity to the empty set and leaves the
room-to-members map untouched, so room-side memberships of a reconnecting
identity remain behind as one-sided edges. -/
theorem C10_theorem (s : WSState) (u : String) (h : Nat) (now : String) :
    roomsOf (connect s u h now).1 u = [] ∧
    (connect s u h now).1.user_rooms = s.user_rooms := by
  constructor
  · show (alookup u (aset u ([] : List String) s.user_to_rooms)).getD [] = []
    rw [alookup_aset_self]
    rfl
  · rfl

end FusionWS

namespace FusionWS

theorem disconnect_snd {s : WSState} {u : String} (now : String)
    (hc : isConnected s u = true) :
    (disconnect s u now).2 =
      (disconnect s u now).1.active_connections.map
        (fun p => (p.1, [("type", "user_offline"), ("user_id", u),
          ("timestamp", now)])) := by
  unfold disconnect
  rw [if_pos hc]
  dsimp only
  rw [broadcast_to_all_none]

/-- C3 (amended): for a connected identity that is a member of a set of
rooms, disconnect removes it from every room, deletes its room-set and
connection entries, and broadcasts exactly one global user_offline event
to each remaining connection; no per-room user_left_room event is sent
(the source only notifies rooms from the leave_room handler, not from
disconnect). -/
theorem C3_theorem (s : WSState) (u now : String) (he : edgeInv s)
    (hc : isConnected s u = true) :
    (∀ r, u ∉ membersOf (disconnect s u now).1 r) ∧
    roomsOf (disconnect s u now).1 u = [] ∧
    isConnected (disconnect s u now).1 u = false ∧
    (disconnect s u now).2 =
      (disconnect s u now).1.active_connections.map
        (fun p => (p.1, [("type", "user_offline"), ("user_id", u),
          ("timestamp", now)])) ∧
    (∀ o ∈ (disconnect s u now).2, alookup "type" o.2 = some "user_offline") := by
  refine ⟨?_, roomsOf_disconnect_self now hc, isConnected_disconnect_self now hc,
    disconnect_snd now hc, ?_⟩
  · intro r
    rw [membersOf_disconnect now hc r, membersOf_leave_all]
    by_cases hL : r ∈ roomsOf s u
    · rw [if_pos hL]
      intro hm
      exact (mem_srem.mp hm).2 rfl
    · rw [if_neg hL]
      intro hm
      exact hL ((he u r).mp hm)
  · intro o ho
    rw [disconnect_snd now hc] at ho
    rcases List.mem_map.mp ho with ⟨p, _, rfl⟩
    rfl

/-- C3 witness: disconnecting u1 from a concrete state where u1 and u2
are both members of r1 removes u1 from r1 and empties its room set. -/
theorem C3_witness :
    ("u1" ∉ membersOf (disconnect demo4 "u1" "t9").1 "r1") ∧
    roomsOf (disconnect demo4 "u1" "t9").1 "u1" = [] :=
  ⟨(C3_theorem demo4 "u1" "t9" (reachSafe_goodInv demo4_safe).1 (by decide)).1 "r1",
   (C3_theorem demo4 "u1" "t9" (reachSafe_goodInv demo4_safe).1 (by decide)).2.1⟩

/-- C3 counterexample: u1 and u2 are both members of r1; disconnecting u1
emits only the global user_offline event to u2 and no user_left_room
event, although the claim promises one per affected room. -/
theorem C3_counterexample :
    "u1" ∈ membersOf demo4 "r1" ∧ "u2" ∈ membersOf demo4 "r1" ∧
    (disconnect demo4 "u1" "t9").2 =
      [("u2", [("type", "user_offline"), ("user_id", "u1"), ("timestamp", "t9")])] ∧
    (∀ o ∈ (disconnect demo4 "u1" "t9").2,
      alookup "type" o.2 ≠ some "user_left_room") := by
  decide

end FusionWS

namespace FusionWS

/-- C5 (amended): the router dispatches on seven recognized tags, not
five (community_update and post_update are also handled).  An
unrecognized tag, including a missing type, earns a structured error
envelope.  Among recognized tags only chat_message and join_room reply
with an error envelope on a missing required field; leave_room,
typing_indicator and user_status silently drop the message with no state
change and no reply.  The one reachable handler exception, join_room for
a sender without a room-set entry, is caught and reported as an error
envelope, so the router never crashes. -/
theorem C5_theorem (s : WSState) (u : String) (d : InData) (now : String) :
    (isHandled d.type = false →
      handle_message s u d now =
        (s, send_personal_message s u
          (error_envelope ("Unknown message type: " ++ tagStr d.type) now))) ∧
    (d.type = some "chat_message" →
      (falsy d.room_id || (pystrip (d.content.getD "") == "")) = true →
      handle_message s u d now =
        (s, send_personal_message s u
          (error_envelope "Room ID and content are required" now))) ∧
    (d.type = some "join_room" → falsy d.room_id = true →
      handle_message s u d now =
        (s, send_personal_message s u (error_envelope "Room ID is required" now))) ∧
    (d.type = some "leave_room" → falsy d.room_id = true →
      handle_message s u d now = (s, [])) ∧
    (d.type = some "typing_indicator" → falsy d.room_id = true →
      handle_message s u d now = (s, [])) ∧
    (d.type = some "user_status" → validStatus d.status = false →
      handle_message s u d now = (s, [])) ∧
    (d.type = some "join_room" → falsy d.room_id = false →
      alookup u s.user_to_rooms = none →
      (handle_message s u d now).2 =
        send_personal_message (handle_message s u d now).1 u
          (error_envelope "Error processing join_room" now)) := by
  refine ⟨?_, ?_, ?_, ?_, ?_, ?_, ?_⟩
  · intro hh
    exact handle_message_unknown hh
  · intro hd hcond
    have hh : isHandled d.type = true := by rw [hd]; rfl
    have hrun := @run_handler_chat s u d now hd
    have hexc : (run_handler s u d now).2.2 = false := by
      rw [hrun]
      exact handle_chat_message_exc s u d now
    rw [handle_message_run hh hexc, hrun, handle_chat_message_err1 hcond]
  · intro hd hf
    have hh : isHandled d.type = true := by rw [hd]; rfl
    have hrun := @run_handler_join s u d now hd
    have hexc : (run_handler s u d now).2.2 = false := by
      rw [hrun, handle_join_room_falsy hf]
    rw [handle_message_run hh hexc, hrun, handle_join_room_falsy hf]
  · intro hd hf
    have hh : isHandled d.type = true := by rw [hd]; rfl
    have hrun := @run_handler_leave s u d now hd
    have hexc : (run_handler s u d now).2.2 = false := by
      rw [hrun]
      exact handle_leave_room_exc s u d now
    rw [handle_message_run hh hexc, hrun, handle_leave_room_falsy hf]
  · intro hd hf
    have hh : isHandled d.type = true := by rw [hd]; rfl
    have hrun := @run_handler_typing s u d now hd
    have hexc : (run_handler s u d now).2.2 = false := by
      rw [hrun]
      exact handle_typing_indicator_exc s u d now
    rw [handle_message_run hh hexc, hrun, handle_typing_indicator_falsy hf]
  · intro hd hv
    have hh : isHandled d.type = true := by rw [hd]; rfl
    have hrun := @run_handler_status s u d now hd
    have hexc : (run_handler s u d now).2.2 = false := by
      rw [hrun]
      exact handle_user_status_exc s u d now
    rw [handle_message_run hh hexc, hrun, handle_user_status_invalid hv]
  · intro hd hf halo
    have hh : isHandled d.type = true := by rw [hd]; rfl
    have hrun := @run_handler_join s u d now hd
    have hexc : (run_handler s u d now).2.2 = true := by
      rw [hrun, handle_join_room_keyerror hf halo]
    rw [handle_message_exc hh hexc, hrun, handle_join_room_keyerror hf halo]
    have htag : tagStr d.type = "join_room" := by rw [hd]; rfl
    rw [htag]
    rfl

/-- C5 witness: an unknown tag at a concrete state draws the structured
unknown-message-type error envelope and leaves the state unchanged. -/
theorem C5_witness :
    handle_message demo3 "u1" (tagOnly "dance") "t8" =
      (demo3, send_personal_message demo3 "u1"
        (error_envelope ("Unknown message type: " ++
          tagStr (tagOnly "dance").type) "t8")) :=
  (C5_theorem demo3 "u1" (tagOnly "dance") "t8").1 (by decide)

/-- C5 counterexample: leave_room with the room_id field missing is a
recognized tag with a missing required field, yet the connected sender
receives no reply at all (the handler returns silently), refuting the
claim that every such message draws a structured error envelope. -/
theorem C5_counterexample :
    isConnected demo3 "u1" = true ∧
    handle_message demo3 "u1" (tagOnly "leave_room") "t9" = (demo3, []) := by
  constructor
  · decide
  · decide

end FusionWS

namespace FusionWS

/-- C6 (confirmed): a chat_message whose content is empty or whitespace
only after trimming draws the validation error envelope to the sender
with no broadcast and an unchanged state; a chat_message with nonempty
trimmed content to a room the sender has not joined draws the
not-in-this-room error envelope to the sender, no broadcast, no
auto-join, and an unchanged room index. -/
theorem C6_theorem (s : WSState) (u : String) (d : InData) (now : String)
    (hd : d.type = some "chat_message") :
    (pystrip (d.content.getD "") = "" →
      handle_message s u d now =
        (s, send_personal_message s u
          (error_envelope "Room ID and content are required" now))) ∧
    (falsy d.room_id = false → pystrip (d.content.getD "") ≠ "" →
      ¬ (d.room_id.getD "") ∈ roomsOf s u →
      handle_message s u d now =
        (s, send_personal_message s u
          (error_envelope "You are not in this room" now))) := by
  have hh : isHandled d.type = true := by rw [hd]; rfl
  have hrun := @run_handler_chat s u d now hd
  have hexc : (run_handler s u d now).2.2 = false := by
    rw [hrun]
    exact handle_chat_message_exc s u d now
  constructor
  · intro hempty
    have hcond : (falsy d.room_id || (pystrip (d.content.getD "") == "")) = true := by
      rw [hempty]
      simp
    rw [handle_message_run hh hexc, hrun, handle_chat_message_err1 hcond]
  · intro hf hne hmem
    have hcond : (falsy d.room_id || (pystrip (d.content.getD "") == "")) = false := by
      rw [hf]
      simp [hne]
    rw [handle_message_run hh hexc, hrun, handle_chat_message_err2 hcond hmem]

/-- C6 witness: u1 sends a chat message to a room it has not joined at a
concrete state and receives the authorization-style error envelope with
the state unchanged. -/
theorem C6_witness :
    handle_message demo3 "u1" (chatMsg "r2" "hi") "t8" =
      (demo3, send_personal_message demo3 "u1"
        (error_envelope "You are not in this room" "t8")) :=
  (C6_theorem demo3 "u1" (chatMsg "r2" "hi") "t8" rfl).2 (by decide) (by decide)
    (by decide)

/-- C7 (amended): a user_status message with a whitelisted status is
broadcast as user_status_update to every connected identity other than
the sender, provided the sender id is a non-empty string: the exclusion
check of the source treats an empty-string exclude value as falsy, so a
sender with the empty-string identity receives its own update (see the
counterexample).  Any other status value is silently ignored: no
broadcast, no error, state unchanged. -/
theorem C7_theorem (s : WSState) (u : String) (d : InData) (now : String)
    (hd : d.type = some "user_status") :
    (validStatus d.status = true → u ≠ "" →
      handle_message s u d now =
        (s, (s.active_connections.filter (fun p => !(p.1 == u))).map
          (fun p => (p.1, [("type", "user_status_update"), ("user_id", u),
            ("status", d.status.getD ""),
            ("custom_message", d.custom_message.getD ""),
            ("timestamp", now)])))) ∧
    (validStatus d.status = false → handle_message s u d now = (s, [])) := by
  have hh : isHandled d.type = true := by rw [hd]; rfl
  have hrun := @run_handler_status s u d now hd
  have hexc : (run_handler s u d now).2.2 = false := by
    rw [hrun]
    exact handle_user_status_exc s u d now
  constructor
  · intro hv hne
    rw [handle_message_run hh hexc, hrun, handle_user_status_valid hv]
    dsimp only
    rw [broadcast_to_all_excl s _ hne]
  · intro hv
    rw [handle_message_run hh hexc, hrun, handle_user_status_invalid hv]

/-- C7 witness: a valid status from the nonempty-id sender u2 at a
concrete two-user state is delivered exactly to the other connection. -/
theorem C7_witness :
    handle_message demo3 "u2" (statusMsg "away") "t8" =
      (demo3, (demo3.active_connections.filter (fun p => !(p.1 == "u2"))).map
        (fun p => (p.1, [("type", "user_status_update"), ("user_id", "u2"),
          ("status", (statusMsg "away").status.getD ""),
          ("custom_message", (statusMsg "away").custom_message.getD ""),
          ("timestamp", "t8")]))) :=
  (C7_theorem demo3 "u2" (statusMsg "away") "t8" rfl).1 (by decide) (by decide)

/-- C7 counterexample: a connected sender whose identity is the empty
string broadcasts a valid status and receives its own user_status_update,
because the exclusion test is a Python truthiness check on the excluded
identity; this refutes the claim that the sender is always excluded. -/
theorem C7_counterexample :
    isConnected demoEmptyId "" = true ∧
    validStatus (statusMsg "online").status = true ∧
    ("", [("type", "user_status_update"), ("user_id", ""), ("status", "online"),
      ("custom_message", ""), ("timestamp", "e2")]) ∈
        (handle_message demoEmptyId "" (statusMsg "online") "e2").2 := by
  decide

end FusionWS

namespace FusionWS

/-- C8 (confirmed): a valid chat_message from a connected sender that is
a member of the room is broadcast, with no exclusion, to exactly the
connected members of the room; the sender is among the recipients and
receives its own copy, and the envelope is enriched with the sender id, a
timestamp, and a generated message id. -/
theorem C8_theorem (s : WSState) (u r c now : String)
    (hc : isConnected s u = true) (hr : r ≠ "") (hcnt : pystrip c ≠ "")
    (hrooms : r ∈ roomsOf s u) (hmem : u ∈ membersOf s r) :
    handle_message s u (chatMsg r c) now =
      (s, (membersOf s r).filterMap (fun v =>
        if isConnected s v then
          some (v, [("type", "chat_message"), ("room_id", r), ("user_id", u),
            ("content", pystrip c), ("message_type", "text"), ("timestamp", now),
            ("message_id", u ++ "_" ++ now)])
        else none)) ∧
    (u, [("type", "chat_message"), ("room_id", r), ("user_id", u),
      ("content", pystrip c), ("message_type", "text"), ("timestamp", now),
      ("message_id", u ++ "_" ++ now)]) ∈ (handle_message s u (chatMsg r c) now).2 ∧
    ("user_id", u) ∈ ([("type", "chat_message"), ("room_id", r), ("user_id", u),
      ("content", pystrip c), ("message_type", "text"), ("timestamp", now),
      ("message_id", u ++ "_" ++ now)] : Json) ∧
    ("timestamp", now) ∈ ([("type", "chat_message"), ("room_id", r), ("user_id", u),
      ("content", pystrip c), ("message_type", "text"), ("timestamp", now),
      ("message_id", u ++ "_" ++ now)] : Json) ∧
    ("message_id", u ++ "_" ++ now) ∈
      ([("type", "chat_message"), ("room_id", r), ("user_id", u),
        ("content", pystrip c), ("message_type", "text"), ("timestamp", now),
        ("message_id", u ++ "_" ++ now)] : Json) := by
  have hd : (chatMsg r c).type = some "chat_message" := rfl
  have hh : isHandled (chatMsg r c).type = true := rfl
  have hrun := @run_handler_chat s u (chatMsg r c) now hd
  have hexc : (run_handler s u (chatMsg r c) now).2.2 = false := by
    rw [hrun]
    exact handle_chat_message_exc s u (chatMsg r c) now
  have hcond : (falsy (chatMsg r c).room_id ||
      (pystrip ((chatMsg r c).content.getD "") == "")) = false := by
    show ((r == "") || (pystrip c == "")) = false
    simp [hr, hcnt]
  have hmem2 : (chatMsg r c).room_id.getD "" ∈ roomsOf s u := hrooms
  cases hlook : alookup r s.user_rooms with
  | none =>
      exfalso
      rw [membersOf_eq, hlook] at hmem
      simp at hmem
  | some mem =>
      have hmm : membersOf s r = mem := by rw [membersOf_eq, hlook]; rfl
      have hmain : handle_message s u (chatMsg r c) now =
          (s, (membersOf s r).filterMap (fun v =>
            if isConnected s v then
              some (v, [("type", "chat_message"), ("room_id", r), ("user_id", u),
                ("content", pystrip c), ("message_type", "text"),
                ("timestamp", now), ("message_id", u ++ "_" ++ now)])
            else none)) := by
        rw [handle_message_run hh hexc, hrun, handle_chat_message_ok hcond hmem2]
        rw [show (chatMsg r c).room_id.getD "" = r from rfl]
        rw [broadcast_to_room_none hlook, hmm]
        rfl
      refine ⟨hmain, ?_, by simp, by simp, by simp⟩
      rw [hmain]
      exact mem_filterMap_connected _ hmem hc

/-- C8 witness: at a concrete state where u1 and u2 are both connected
members of r1, a chat message from u1 is delivered to u1 itself among the
recipients. -/
theorem C8_witness :
    ("u1", [("type", "chat_message"), ("room_id", "r1"), ("user_id", "u1"),
      ("content", pystrip "hi"), ("message_type", "text"), ("timestamp", "t8"),
      ("message_id", "u1" ++ "_" ++ "t8")]) ∈
        (handle_message demo4 "u1" (chatMsg "r1" "hi") "t8").2 :=
  (C8_theorem demo4 "u1" "r1" "hi" "t8" (by decide) (by decide) (by decide)
    (by decide) (by decide)).2.1

end FusionWS

namespace FusionCM

theorem keys_nodup_unique {st : List (Nat × Int)}
    (h : (st.map Prod.fst).Nodup) {u : Nat} {ts ts' : Int}
    (h1 : (u, ts) ∈ st) (h2 : (u, ts') ∈ st) : ts = ts' := by
  induction st with
  | nil => simp at h1
  | cons a t ih =>
      rw [List.map_cons, List.nodup_cons] at h
      rcases List.mem_cons.mp h1 with heq1 | h1t
      · rcases List.mem_cons.mp h2 with heq2 | h2t
        · rw [← heq1] at heq2
          injection heq2 with _ hv
          exact hv.symm
        · exfalso
          apply h.1
          have hmap : u ∈ List.map Prod.fst t := List.mem_map.mpr ⟨(u, ts'), h2t, rfl⟩
          rw [← heq1]
          exact hmap
      · rcases List.mem_cons.mp h2 with heq2 | h2t
        · exfalso
          apply h.1
          have hmap : u ∈ List.map Prod.fst t := List.mem_map.mpr ⟨(u, ts), h1t, rfl⟩
          rw [← heq2]
          exact hmap
        · exact ih h.2 h1t h2t

theorem foldl_del_eq (L : List Nat) (st : List (Nat × Int)) :
    L.foldl (fun acc uid => acc.filter (fun p => !(p.1 == uid))) st =
      st.filter (fun p => decide (¬ p.1 ∈ L)) := by
  induction L generalizing st with
  | nil => simp
  | cons a t ih =>
      rw [List.foldl_cons, ih, List.filter_filter]
      apply List.filter_congr
      intro p hp
      by_cases h1 : p.1 = a <;> by_cases h2 : p.1 ∈ t <;>
        simp [h1, h2]

theorem mem_inactive_iff {st : List (Nat × Int)} {now : Int} {u : Nat} {ts : Int}
    (hnodup : (st.map Prod.fst).Nodup) (hmem : (u, ts) ∈ st) :
    u ∈ (sweep_inactive st now).2 ↔ ts < inactivity_cutoff now := by
  unfold sweep_inactive
  dsimp only
  rw [List.mem_map]
  constructor
  · rintro ⟨p, hp, hpu⟩
    rw [List.mem_filter] at hp
    have hpmem : (u, p.2) ∈ st := by
      rw [← hpu]
      exact hp.1
    have hts : ts = p.2 := keys_nodup_unique hnodup hmem hpmem
    rw [hts]
    exact of_decide_eq_true hp.2
  · intro hts
    exact ⟨(u, ts), List.mem_filter.mpr ⟨hmem, by simpa using hts⟩, rfl⟩

theorem mem_survivor_iff {st : List (Nat × Int)} {now : Int} {u : Nat} {ts : Int}
    (hnodup : (st.map Prod.fst).Nodup) (hmem : (u, ts) ∈ st) :
    (u, ts) ∈ (sweep_inactive st now).1 ↔ ¬ ts < inactivity_cutoff now := by
  unfold sweep_inactive
  dsimp only
  rw [foldl_del_eq, List.mem_filter]
  constructor
  · rintro ⟨-, hdec⟩
    intro hts
    apply of_decide_eq_true hdec
    exact List.mem_map.mpr
      ⟨(u, ts), List.mem_filter.mpr ⟨hmem, by simpa using hts⟩, rfl⟩
  · intro hts
    refine ⟨hmem, ?_⟩
    apply decide_eq_true
    intro hu
    rcases List.mem_map.mp hu with ⟨p, hp, hpu⟩
    rw [List.mem_filter] at hp
    have hpu2 : p.1 = u := hpu
    have hpmem : (u, p.2) ∈ st := by
      rw [← hpu2]
      exact hp.1
    have hts2 : ts = p.2 := keys_nodup_unique hnodup hmem hpmem
    rw [hts2] at hts
    exact hts (of_decide_eq_true hp.2)

/-- C4 (confirmed): one successful pass of the presence sweep removes
exactly the identities whose last-activity timestamp is strictly older
than the five-minute cutoff from the active-user map, and reports exactly
those identities offline (the cache_user_online_status False call of the
source); a pass whose body raises leaves the state unchanged and the loop
continues with the next pass 60 time-units later, as both branches sleep
the same 60 units. -/
theorem C4_theorem (st : List (Nat × Int)) (now : Int) (u : Nat) (ts : Int)
    (t0 : Int) (rest : List Bool)
    (hnodup : (st.map Prod.fst).Nodup) (hmem : (u, ts) ∈ st) :
    inactivity_cutoff now = now - 5 * 60 ∧
    (((u, ts) ∈ (sweep_inactive st now).1) ↔ ¬ ts < inactivity_cutoff now) ∧
    ((u ∈ (sweep_inactive st now).2) ↔ ts < inactivity_cutoff now) ∧
    update_user_activity st t0 (false :: rest) =
      update_user_activity st (t0 + 60) rest := by
  exact ⟨rfl, mem_survivor_iff hnodup hmem, mem_inactive_iff hnodup hmem, rfl⟩

/-- C4 witness: a concrete sweep at time 1000 over two users with
timestamps 0 and 900 removes and reports user 1 (timestamp 0, older than
the cutoff 700) and keeps user 2. -/
theorem C4_witness :
    inactivity_cutoff 1000 = 1000 - 5 * 60 ∧
    (((1, (0 : Int)) ∈ (sweep_inactive [(1, 0), (2, 900)] 1000).1) ↔
      ¬ (0 : Int) < inactivity_cutoff 1000) ∧
    (((1 : Nat) ∈ (sweep_inactive [(1, 0), (2, 900)] 1000).2) ↔
      (0 : Int) < inactivity_cutoff 1000) ∧
    update_user_activity [(1, 0), (2, 900)] 0 (false :: []) =
      update_user_activity [(1, 0), (2, 900)] (0 + 60) [] :=
  C4_theorem [(1, 0), (2, 900)] 1000 1 0 0 [] (by decide) (by decide)

end FusionCM
